import Mathlib

/-!
AniScript Studio — verification of the project/scene data management,
character import, AI orchestration flow and asset exporter.

Shallow embedding of the TypeScript sources:
* the data model (`types.ts` part of the bundle): `VideoType`, `AnimationStyle`,
  `Character`, `Scene`, `Project`;
* the project store operations of `App.tsx`: `handleCreateProject`,
  `updateProject`, `handleDeleteProject`;
* the character manager operations: `handleImportJson`, `removeCharacter`;
* the storyboard operations: `handleSavePrompt`, the scene update of
  `handleGenerateImage`, and `handleDownloadAssets` (manifest + zip entries);
* the Gemini service: `getClient`, `generateStoryScenes`,
  `generateScenePreview`, `generateProjectIdea`.

External collaborators (the host JSON parser, the remote generation service,
`crypto.randomUUID`) are modelled as explicit parameters/oracles; the
JavaScript-specific behaviours the code relies on (truthiness of strings,
`padStart`, `split(',')[1]`, property access throwing on `null`) are embedded
explicitly.
-/

namespace AniScript

/-- The `VideoType` enum from `types.ts`; `value` is the string value of the
TypeScript enum member. -/
inductive VideoType where
  | SHORT
  | LONG
deriving DecidableEq, Repr

def VideoType.value : VideoType → String
  | .SHORT => "YouTube Shorts (Vertical 9:16)"
  | .LONG => "YouTube Long (Horizontal 16:9)"

/-- The `AnimationStyle` enum from `types.ts`. -/
inductive AnimationStyle where
  | DISNEY_PIXAR
  | ANIME_SHINKAI
  | CINEMATIC_REALISTIC
  | HAND_DRAWN_SKETCHY
  | CLAYMATION
  | CYBERPUNK
deriving DecidableEq, Repr

def AnimationStyle.value : AnimationStyle → String
  | .DISNEY_PIXAR => "Disney/Pixar 3D Style"
  | .ANIME_SHINKAI => "Anime Makoto Shinkai Style"
  | .CINEMATIC_REALISTIC => "Cinematic Realistic"
  | .HAND_DRAWN_SKETCHY => "Hand-drawn Sketchy"
  | .CLAYMATION => "Claymation / Stop Motion"
  | .CYBERPUNK => "Cyberpunk / Sci-Fi 3D"

/-- The `Character` record from `types.ts`. `personality` is an optional field. -/
structure Character where
  id : String
  name : String
  description : String
  features : String
  personality : Option String := none
deriving DecidableEq, Repr

/-- The `Scene` record from `types.ts`. Scene numbers are the 1-based integer
indices produced by the generation schema, modelled as naturals.
`generatedImageUrl` and `isGeneratingImage` are optional fields. -/
structure Scene where
  id : String
  sceneNumber : Nat
  script : String
  visualPrompt : String
  duration : String
  generatedImageUrl : Option String := none
  isGeneratingImage : Option Bool := none
deriving DecidableEq, Repr

/-- The `Project` record from `types.ts`; `createdAt` is the `Date.now()`
millisecond timestamp. -/
structure Project where
  id : String
  name : String
  type : VideoType
  style : AnimationStyle
  createdAt : Int
  characters : List Character
  scenes : List Scene
  storyIdea : String
deriving DecidableEq, Repr

/-! ## Project store (`App.tsx`)

`handleCreateProject` allocates the id via `crypto.randomUUID()` and the
timestamp via `Date.now()`; both are ambient effects and are passed here as
explicit arguments (`freshId`, `now`).  The initial character list is
`customCharacters || JSON.parse(INITIAL_CHARACTERS_JSON).characters`, a value
supplied by the surrounding UI state and passed here as `initialChars`.
The JavaScript `newProjectName || 'Untitled Project'` default applies when the
name is the empty string (falsy). -/

def handleCreateProject (projects : List Project) (freshId : String) (now : Int)
    (newProjectName : String) (newProjectType : VideoType)
    (newProjectStyle : AnimationStyle) (storyIdea : String)
    (initialChars : List Character) : List Project × Project :=
  let newProject : Project :=
    { id := freshId
      name := if newProjectName = "" then "Untitled Project" else newProjectName
      type := newProjectType
      style := newProjectStyle
      createdAt := now
      characters := initialChars
      scenes := []
      storyIdea := storyIdea }
  (newProject :: projects, newProject)

/-- Function `updateProject` from `App.tsx`: `projects.map(p => p.id === updated.id ? updated : p)`. -/
def updateProject (projects : List Project) (updated : Project) : List Project :=
  projects.map (fun p => if p.id = updated.id then updated else p)

/-- Function `handleDeleteProject` from `App.tsx`: `projects.filter(p => p.id !== id)`. -/
def handleDeleteProject (projects : List Project) (id : String) : List Project :=
  projects.filter (fun p => p.id != id)

/-! ## Character manager (`CharacterManager.tsx`) -/

/-- Function `removeCharacter`: `characters.filter(c => c.id !== id)`. -/
def removeCharacter (characters : List Character) (id : String) : List Character :=
  characters.filter (fun c => c.id != id)

/-! ## Storyboard scene mutations (`Storyboard.tsx`) -/

/-- Function `handleSavePrompt`: `project.scenes.map(s => s.id === sceneId ? { ...s, visualPrompt: editPromptValue } : s)`. -/
def handleSavePrompt (scenes : List Scene) (sceneId : String)
    (editPromptValue : String) : List Scene :=
  scenes.map (fun s =>
    if s.id = sceneId then { s with visualPrompt := editPromptValue } else s)

/-- Scene-list update of `handleGenerateImage`:
`project.scenes.map(s => s.id === scene.id ? { ...s, generatedImageUrl: base64Image } : s)`. -/
def setSceneImage (scenes : List Scene) (sceneId : String)
    (base64Image : String) : List Scene :=
  scenes.map (fun s =>
    if s.id = sceneId then { s with generatedImageUrl := some base64Image } else s)

/-! ## Helper lemmas -/

theorem filter_bne_eq_self {α : Type} [DecidableEq α] (key : α → String)
    (l : List α) (id : String) (h : ∀ a ∈ l, key a ≠ id) :
    l.filter (fun a => key a != id) = l := by
  induction l with
  | nil => rfl
  | cons a l ih =>
      have ha : key a ≠ id := h a (List.mem_cons_self a l)
      have hl : ∀ b ∈ l, key b ≠ id := fun b hb => h b (List.mem_cons_of_mem a hb)
      have hba : (key a != id) = true := bne_iff_ne.mpr ha
      simp [List.filter_cons, hba, ih hl]

theorem map_if_id_eq_self {α : Type} (key : α → String) (f : α → α)
    (l : List α) (id : String) (h : ∀ a ∈ l, key a ≠ id) :
    l.map (fun a => if key a = id then f a else a) = l := by
  induction l with
  | nil => rfl
  | cons a l ih =>
      have ha : key a ≠ id := h a (List.mem_cons_self a l)
      have hl : ∀ b ∈ l, key b ≠ id := fun b hb => h b (List.mem_cons_of_mem a hb)
      simp [ha, ih hl]

/-! ## C4: create / delete / update round-trip on the project store -/

/-- C4: for every store state and project draft, creating a project (with a
fresh identifier), then deleting that identifier, then updating with the
now-absent project, returns the original project list — in particular the
set of project identifiers and their associated projects is unchanged. -/
theorem create_delete_update_round_trip
    (projects : List Project) (freshId : String) (now : Int)
    (newProjectName : String) (newProjectType : VideoType)
    (newProjectStyle : AnimationStyle) (storyIdea : String)
    (initialChars : List Character)
    (hfresh : ∀ p ∈ projects, p.id ≠ freshId) :
    let created := handleCreateProject projects freshId now newProjectName
      newProjectType newProjectStyle storyIdea initialChars
    updateProject (handleDeleteProject created.1 created.2.id) created.2
      = projects ∧
    (∀ p, p ∈ updateProject (handleDeleteProject created.1 created.2.id)
      created.2 ↔ p ∈ projects) := by
  intro created
  have hid : created.2.id = freshId := rfl
  have hdel : handleDeleteProject created.1 created.2.id = projects := by
    show (created.2 :: projects).filter (fun p => p.id != created.2.id) = projects
    rw [List.filter_cons]
    have : (created.2.id != created.2.id) = false := by simp
    rw [this]
    simp only [Bool.false_eq_true, if_false]
    exact filter_bne_eq_self Project.id projects created.2.id
      (by rw [hid]; exact hfresh)
  have hupd : updateProject projects created.2 = projects := by
    unfold updateProject
    exact map_if_id_eq_self Project.id (fun _ => created.2) projects created.2.id
      (by rw [hid]; exact hfresh)
  constructor
  · rw [hdel, hupd]
  · intro p
    rw [hdel, hupd]

/-- Witness for C4 at a concrete store state and draft. -/
theorem create_delete_update_round_trip_witness :
    let p0 : Project := ⟨"p0", "Existing", .LONG, .CLAYMATION, 5, [], [], "old"⟩
    let created := handleCreateProject [p0] "fresh-id" 99 "Test" .SHORT
      .DISNEY_PIXAR "idea" []
    updateProject (handleDeleteProject created.1 created.2.id) created.2
      = [p0] ∧
    (∀ p, p ∈ updateProject (handleDeleteProject created.1 created.2.id)
      created.2 ↔ p ∈ [p0]) := by
  exact create_delete_update_round_trip [_] "fresh-id" 99 "Test" .SHORT
    .DISNEY_PIXAR "idea" [] (by decide)

/-! ## C5: absent identifiers make the editor operations no-ops -/

/-- C5: `removeCharacter`, `handleSavePrompt` (saving an edited visual prompt)
and `setSceneImage` each return the input list unchanged, element for element,
when the given identifier occurs nowhere in the list. -/
theorem editor_ops_noop_when_id_absent
    (characters : List Character) (scenes : List Scene) (id : String)
    (newPrompt : String) (imageData : String)
    (hchar : ∀ c ∈ characters, c.id ≠ id)
    (hscene : ∀ s ∈ scenes, s.id ≠ id) :
    removeCharacter characters id = characters ∧
    handleSavePrompt scenes id newPrompt = scenes ∧
    setSceneImage scenes id imageData = scenes := by
  refine ⟨?_, ?_, ?_⟩
  · exact filter_bne_eq_self Character.id characters id hchar
  · exact map_if_id_eq_self Scene.id
      (fun s => { s with visualPrompt := newPrompt }) scenes id hscene
  · exact map_if_id_eq_self Scene.id
      (fun s => { s with generatedImageUrl := some imageData }) scenes id hscene

/-- Witness for C5 at concrete lists whose identifiers differ from the
requested one. -/
theorem editor_ops_noop_when_id_absent_witness :
    let chars : List Character := [⟨"c1", "Bella", "d", "f", none⟩]
    let scenes : List Scene := [⟨"s1", 1, "sc", "vp", "3s", none, none⟩]
    removeCharacter chars "zzz" = chars ∧
    handleSavePrompt scenes "zzz" "new prompt" = scenes ∧
    setSceneImage scenes "zzz" "imgdata" = scenes := by
  exact editor_ops_noop_when_id_absent _ _ "zzz" "new prompt" "imgdata"
    (by decide) (by decide)

/-! ## Character import (`handleImportJson` in `CharacterManager.tsx`)

`JSON.parse(jsonInput)` is the host JSON parser, an external collaborator; its
outcome is passed in as `Option Json` (`none` = the parser threw a syntax
error).  Arrays are modelled as arrays of character records, the element type
the surrounding code assigns to them (`Character[]`); objects carry their
field list (assumed canonical: no duplicate keys, as produced by a JSON
parser).  JavaScript property access `parsed.characters` yields the field
value on objects, `undefined` on non-object non-null values, and throws a
`TypeError` on `null` — the `raised` outcome below. -/

inductive Json where
  | null
  | scalar
  | arr (elems : List Character)
  | obj (fields : List (String × Json))

/-- Outcome of a JavaScript property access `v.k`. -/
inductive PropAccess where
  | found (j : Json)
  | jsUndefined
  | raised

/-- JavaScript property access on a parsed JSON value. -/
def getProp : Json → String → PropAccess
  | .null, _ => .raised
  | .obj fields, k =>
      match fields.lookup k with
      | some v => .found v
      | none => .jsUndefined
  | _, _ => .jsUndefined

/-- Outcome of `handleImportJson`: either `onUpdate` was called with the new
character list, or one of the two error messages was set and no update was
emitted. `parseError` is the `"Invalid JSON syntax."` branch (the catch
block), `schemaError` the `"Invalid JSON format: missing 'characters'
array."` branch. -/
inductive ImportOutcome where
  | updated (newChars : List Character)
  | parseError
  | schemaError
deriving DecidableEq

/-- Function `handleImportJson`: parse (outcome supplied), check
`Array.isArray(parsed.characters)`, and on success append
`[...characters, ...parsed.characters]`.  A `TypeError` raised by the property
access on a `null` parse result lands in the same catch block as a syntax
error. -/
def handleImportJson (characters : List Character)
    (parseResult : Option Json) : ImportOutcome :=
  match parseResult with
  | none => .parseError
  | some parsed =>
      match getProp parsed "characters" with
      | .raised => .parseError
      | .found (.arr cs) => .updated (characters ++ cs)
      | .found .null => .schemaError
      | .found .scalar => .schemaError
      | .found (.obj _) => .schemaError
      | .jsUndefined => .schemaError

/-- The list `handleImportJson` hands to `onUpdate`, if any; on every failure
outcome no update is emitted. -/
def ImportOutcome.emittedUpdate : ImportOutcome → Option (List Character)
  | .updated l => some l
  | _ => none

theorem handleImportJson_some (characters : List Character) (parsed : Json) :
    handleImportJson characters (some parsed) =
      match getProp parsed "characters" with
      | .raised => .parseError
      | .found (.arr cs) => .updated (characters ++ cs)
      | .found .null => .schemaError
      | .found .scalar => .schemaError
      | .found (.obj _) => .schemaError
      | .jsUndefined => .schemaError := rfl

theorem getProp_ne_raised (parsed : Json) (k : String) (h : parsed ≠ .null) :
    getProp parsed k ≠ .raised := by
  cases parsed with
  | null => exact absurd rfl h
  | scalar => simp [getProp]
  | arr cs => simp [getProp]
  | obj fields =>
      show (match fields.lookup k with
        | some v => PropAccess.found v
        | none => PropAccess.jsUndefined) ≠ .raised
      cases fields.lookup k <;> simp

/-! ## C2: importCharacters is append-only -/

/-- C2: whenever the JSON text parses to a value whose `characters` property
is a list `A`, the import emits exactly the existing list `L` followed by `A`
in order; the result has length `len L + len A` and keeps every existing
entry at its original position. -/
theorem importCharacters_append_only
    (characters A : List Character) (parsed : Json)
    (h : getProp parsed "characters" = .found (.arr A)) :
    handleImportJson characters (some parsed)
      = .updated (characters ++ A) ∧
    (characters ++ A).length = characters.length + A.length ∧
    (characters ++ A).take characters.length = characters := by
  refine ⟨?_, List.length_append characters A, List.take_left characters A⟩
  rw [handleImportJson_some, h]

/-- Witness for C2: importing two characters into a one-element list. -/
theorem importCharacters_append_only_witness :
    let bella : Character := ⟨"char_bella", "Bella", "d1", "f1", none⟩
    let mia : Character := ⟨"char_mia", "Mia", "d2", "f2", none⟩
    let existing : List Character := [⟨"c0", "Zero", "d0", "f0", none⟩]
    handleImportJson existing
        (some (.obj [("characters", .arr [bella, mia])]))
      = .updated (existing ++ [bella, mia]) ∧
    (existing ++ [bella, mia]).length = existing.length + 2 ∧
    (existing ++ [bella, mia]).take existing.length = existing := by
  exact importCharacters_append_only _ [_, _] _ rfl

/-! ## C3: import failure classification

The claim says every parse result whose `characters` field is absent or not a
list fails with SchemaError.  That is false for the JSON text `"null"`: it is
valid JSON, its parse result `null` has no `characters` field, yet the
property access `parsed.characters` throws a `TypeError`, which the catch
block reports as `"Invalid JSON syntax."` — the ParseError branch, not the
SchemaError one. -/

/-- C3 counterexample: importing the valid JSON document `null` (whose
`characters` field is absent) fails through the ParseError branch, not the
SchemaError branch the claim requires. -/
theorem importCharacters_null_not_schemaError :
    handleImportJson [] (some .null) = .parseError ∧
    getProp .null "characters" ≠ .found (.arr []) ∧
    ImportOutcome.parseError ≠ ImportOutcome.schemaError := by
  refine ⟨rfl, ?_, ?_⟩ <;> intro h <;> cases h

/-- C3 (amended): a failed parse yields ParseError; a parse result of `null`
also yields ParseError (the property access throws); any other parse result
whose `characters` field is absent or not a list yields SchemaError; and in
every failure case no update is emitted, so the existing character list is
unchanged. -/
theorem importCharacters_failure_classification
    (characters : List Character) (parseResult : Option Json) :
    (parseResult = none →
      handleImportJson characters parseResult = .parseError) ∧
    (parseResult = some .null →
      handleImportJson characters parseResult = .parseError) ∧
    (∀ parsed, parseResult = some parsed → parsed ≠ .null →
      (∀ A, getProp parsed "characters" ≠ .found (.arr A)) →
      handleImportJson characters parseResult = .schemaError) ∧
    ((handleImportJson characters parseResult = .parseError ∨
      handleImportJson characters parseResult = .schemaError) →
      (handleImportJson characters parseResult).emittedUpdate = none) := by
  refine ⟨?_, ?_, ?_, ?_⟩
  · intro h; rw [h]; rfl
  · intro h; rw [h]; rfl
  · intro parsed h hnull hnotarr
    rw [h, handleImportJson_some]
    cases hp : getProp parsed "characters" with
    | found j =>
        cases j with
        | null => rfl
        | scalar => rfl
        | arr cs => exact absurd hp (hnotarr cs)
        | obj fields => rfl
    | jsUndefined => rfl
    | raised => exact absurd hp (getProp_ne_raised parsed "characters" hnull)
  · intro h
    rcases h with h | h <;> rw [h] <;> rfl

/-- Witness for C3 (amended) at concrete inputs: a syntax failure, the `null`
document, and a document whose `characters` field is a number. -/
theorem importCharacters_failure_classification_witness :
    handleImportJson [] none = .parseError ∧
    handleImportJson [] (some .null) = .parseError ∧
    handleImportJson [] (some (.obj [("characters", .scalar)])) = .schemaError ∧
    (handleImportJson [] (some (.obj [("characters", .scalar)]))).emittedUpdate
      = none := by
  refine ⟨?_, ?_, ?_, ?_⟩
  · exact (importCharacters_failure_classification [] none).1 rfl
  · exact (importCharacters_failure_classification [] (some .null)).2.1 rfl
  · exact (importCharacters_failure_classification []
      (some (.obj [("characters", .scalar)]))).2.2.1 _ rfl
      (by intro h; cases h) (by intro A h; cases h)
  · exact (importCharacters_failure_classification []
      (some (.obj [("characters", .scalar)]))).2.2.2
      (Or.inr (by rfl))

/-! ## Gemini service (`geminiService.ts`)

The remote generation capability and its response parsing are external
collaborators, modelled as oracle parameters:
* `remote` — `ai.models.generateContent`, returning either a thrown error
  (`Except.error`, carrying its message) or the response value;
* `parse` — the host `JSON.parse` applied to the response text, returning
  `none` when it throws;
* `uuid` — `crypto.randomUUID`, an id supply consumed left to right.

`process.env.API_KEY` is `apiKey : Option String`; `if (!apiKey)` fails for
an absent or empty credential.  Each operation additionally returns the
number of remote calls it performed, so "fails before any network attempt"
is the statement that this count is `0`. -/

/-- Error outcomes of the three service operations (each `throw` site). -/
inductive GenError where
  | missingCredential
  | upstream (message : String)
  | parseFailure
  | noImage
deriving DecidableEq, Repr

/-- Function `getClient`: throws `"API Key not found in environment variables"` when
the credential is absent or empty (JavaScript falsiness), otherwise yields a
client configured with the key. -/
def getClient (apiKey : Option String) : Except GenError String :=
  match apiKey with
  | none => .error .missingCredential
  | some key => if key = "" then .error .missingCredential else .ok key

/-- Per-character line of the `characterContext` built by
`generateStoryScenes`. -/
def characterLine (c : Character) : String :=
  "- " ++ c.name ++ ": " ++ c.description ++ ". Visual features: "
    ++ c.features ++ ". "
    ++ (match c.personality with
        | some p => "Personality: " ++ p
        | none => "")

def characterContext (characters : List Character) : String :=
  String.intercalate "\n" (characters.map characterLine)

/-- The `systemInstruction` template of `generateStoryScenes`, with the video
type, animation style and character context interpolated. -/
def storySystemInstruction (characters : List Character)
    (style : AnimationStyle) (type : VideoType) : String :=
  "You are an expert animation director and screenwriter for YouTube.\n"
  ++ "  Your task is to take a story idea and break it down into scenes.\n"
  ++ "  \n"
  ++ "  Format Constraints:\n"
  ++ "  - Video Type: " ++ type.value ++ "\n"
  ++ "  - Animation Style: " ++ style.value ++ "\n"
  ++ "  \n"
  ++ "  Characters Available:\n"
  ++ "  " ++ characterContext characters ++ "\n"
  ++ "  \n"
  ++ "  Instructions:\n"
  ++ "  1. Create a compelling script suitable for the video type (fast-paced for Shorts, well-paced for Long).\n"
  ++ "  2. For 'visualPrompt', write a highly detailed image generation prompt. \n"
  ++ "     - IMPORTANT: You MUST inject the specific visual features of the characters (e.g., \"Bella, a tall woman with long purple braid\") into the prompt every time the character appears so the image generator knows how to draw them.\n"
  ++ "     - Include the art style (" ++ style.value ++ ") in every visual prompt.\n"
  ++ "     - Describe lighting, camera angle, and background.\n"
  ++ "  \n"
  ++ "  Output MUST be a JSON array of objects."

/-- A text-generation request as assembled by the service (model selector,
contents, system instruction). -/
structure GenRequest where
  model : String
  contents : String
  systemInstruction : String
deriving DecidableEq

/-- A text response: `response.text` may be absent. -/
structure TextResponse where
  text : Option String
deriving DecidableEq

/-- Expression `response.text || fallback`: JavaScript falsiness substitutes the
fallback for an absent or empty text. -/
def textOrElse (text : Option String) (fallback : String) : String :=
  match text with
  | none => fallback
  | some t => if t = "" then fallback else t

/-- One record of the parsed `generateStoryScenes` response: the four
mandatory fields of the response schema, with no identifier. -/
structure SceneRecord where
  sceneNumber : Nat
  script : String
  visualPrompt : String
  duration : String
deriving DecidableEq, Repr

/-- Spread `{ ...item, id: crypto.randomUUID() }`: the response record with the
fresh identifier added; all other fields unchanged, optional fields absent. -/
def sceneFromRecord (r : SceneRecord) (id : String) : Scene :=
  { id := id
    sceneNumber := r.sceneNumber
    script := r.script
    visualPrompt := r.visualPrompt
    duration := r.duration
    generatedImageUrl := none
    isGeneratingImage := none }

/-- Expression `parsed.map(item => ({ ...item, id: crypto.randomUUID() }))`: the id
supply is consumed in order, starting at index `i`. -/
def attachIds (uuid : Nat → String) : Nat → List SceneRecord → List Scene
  | _, [] => []
  | i, r :: rs => sceneFromRecord r (uuid i) :: attachIds uuid (i + 1) rs

/-- The request `generateStoryScenes` sends. -/
def storyRequest (idea : String) (characters : List Character)
    (style : AnimationStyle) (type : VideoType) : GenRequest :=
  { model := "gemini-2.5-flash"
    contents := "Story Idea: " ++ idea
    systemInstruction := storySystemInstruction characters style type }

/-- Function `generateStoryScenes`: check the credential, perform the remote call,
default the response text to `"[]"`, parse it, and attach fresh identifiers.
The second component counts remote calls. -/
def generateStoryScenes (apiKey : Option String)
    (remote : GenRequest → Except String TextResponse)
    (parse : String → Option (List SceneRecord))
    (uuid : Nat → String)
    (idea : String) (characters : List Character)
    (style : AnimationStyle) (type : VideoType) :
    Except GenError (List Scene) × Nat :=
  match getClient apiKey with
  | .error e => (.error e, 0)
  | .ok _ =>
      match remote (storyRequest idea characters style type) with
      | .error msg => (.error (.upstream msg), 1)
      | .ok resp =>
          match parse (textOrElse resp.text "[]") with
          | none => (.error .parseFailure, 1)
          | some records => (.ok (attachIds uuid 0 records), 1)

/-- An image-generation request of `generateScenePreview` (model selector,
prompt, requested aspect ratio). -/
structure ImageRequest where
  model : String
  contents : String
  aspectRatio : String
deriving DecidableEq

/-- Field `part.inlineData` of an image response part, carrying its base64 data
when present. -/
structure ImagePart where
  inlineData : Option String
deriving DecidableEq

structure ImageContent where
  parts : List ImagePart
deriving DecidableEq

structure ImageCandidate where
  content : Option ImageContent
deriving DecidableEq

/-- An image response; `candidates` may be absent. -/
structure ImageResponse where
  candidates : Option (List ImageCandidate)
deriving DecidableEq

/-- Expression `response.candidates?.[0]?.content?.parts || []`. -/
def responseParts (resp : ImageResponse) : List ImagePart :=
  match resp.candidates with
  | none => []
  | some cs =>
      match cs.head? with
      | none => []
      | some c =>
          match c.content with
          | none => []
          | some content => content.parts

/-- Function `generateScenePreview`: check the credential, perform the remote call,
return a data URI built from the first part carrying inline data, or throw
`"No image generated"`. -/
def generateScenePreview (apiKey : Option String)
    (remote : ImageRequest → Except String ImageResponse)
    (visualPrompt : String) : Except GenError String × Nat :=
  match getClient apiKey with
  | .error e => (.error e, 0)
  | .ok _ =>
      match remote ⟨"gemini-2.5-flash-image", visualPrompt, "16:9"⟩ with
      | .error msg => (.error (.upstream msg), 1)
      | .ok resp =>
          match (responseParts resp).findSome? (fun p => p.inlineData) with
          | some data => (.ok ("data:image/png;base64," ++ data), 1)
          | none => (.error .noImage, 1)

/-- A character record of the parsed `generateProjectIdea` response; `id`
and `personality` may be absent. -/
structure IdeaCharRecord where
  id : Option String
  name : String
  description : String
  features : String
  personality : Option String
deriving DecidableEq

/-- The parsed `generateProjectIdea` response; `characters` may be absent
from the parsed value. -/
structure IdeaRecord where
  name : String
  storyIdea : String
  type : VideoType
  style : AnimationStyle
  characters : Option (List IdeaCharRecord)
deriving DecidableEq

/-- Spread `{ ...c, id: c.id || crypto.randomUUID() }`: keep a truthy remote id,
otherwise assign the fresh one. -/
def ideaCharWithId (c : IdeaCharRecord) (fresh : String) : IdeaCharRecord :=
  { c with id := some (match c.id with
      | none => fresh
      | some s => if s = "" then fresh else s) }

def attachCharIds (uuid : Nat → String) : Nat → List IdeaCharRecord → List IdeaCharRecord
  | _, [] => []
  | i, c :: cs => ideaCharWithId c (uuid i) :: attachCharIds uuid (i + 1) cs

/-- Expression `Object.values(AnimationStyle).join(', ')`. -/
def validStyles : String :=
  String.intercalate ", " ([AnimationStyle.DISNEY_PIXAR, .ANIME_SHINKAI,
    .CINEMATIC_REALISTIC, .HAND_DRAWN_SKETCHY, .CLAYMATION,
    .CYBERPUNK].map AnimationStyle.value)

/-- Expression `Object.values(VideoType).join(', ')`. -/
def validTypes : String :=
  String.intercalate ", " ([VideoType.SHORT, .LONG].map VideoType.value)

/-- The `systemInstruction` template of `generateProjectIdea`. -/
def ideaSystemInstruction : String :=
  "You are a YouTube creative strategist and trend analyst. \n"
  ++ "  Your goal is to brainstorm a high-potential, viral animation project idea.\n"
  ++ "  \n"
  ++ "  Constraints:\n"
  ++ "  - Allowed Styles: " ++ validStyles ++ "\n"
  ++ "  - Allowed Types: " ++ validTypes ++ "\n"
  ++ "  \n"
  ++ "  Instructions:\n"
  ++ "  1. Analyze current trends or use the provided topic to create a concept.\n"
  ++ "  2. Create a catchy 'name' for the project.\n"
  ++ "  3. Write a brief 'storyIdea' (plot summary).\n"
  ++ "  4. Select the best 'type' and 'style' from the allowed lists.\n"
  ++ "  5. Create a set of unique 'characters' (2-4 characters) with detailed visual descriptions suitable for AI image generation."

/-- Expression `topic ? ... : ...`: the topic-specific user prompt for a truthy topic,
otherwise the trending-idea prompt. -/
def ideaUserPrompt (topic : Option String) : String :=
  let trending := "Generate a trending, viral animation project idea (e.g., horror, comedy, parody, cute animals, or sci-fi)."
  match topic with
  | none => trending
  | some t =>
      if t = "" then trending
      else "Generate a project idea based on this topic: \"" ++ t ++ "\"."

/-- The request `generateProjectIdea` sends. -/
def ideaRequest (topic : Option String) : GenRequest :=
  { model := "gemini-2.5-flash"
    contents := ideaUserPrompt topic
    systemInstruction := ideaSystemInstruction }

/-- Function `generateProjectIdea`: check the credential, perform the remote call,
default the response text to `"{}"`, parse it, and fill in missing character
identifiers. -/
def generateProjectIdea (apiKey : Option String)
    (remote : GenRequest → Except String TextResponse)
    (parse : String → Option IdeaRecord)
    (uuid : Nat → String)
    (topic : Option String) : Except GenError IdeaRecord × Nat :=
  match getClient apiKey with
  | .error e => (.error e, 0)
  | .ok _ =>
      match remote (ideaRequest topic) with
      | .error msg => (.error (.upstream msg), 1)
      | .ok resp =>
          match parse (textOrElse resp.text "\x7b\x7d") with
          | none => (.error .parseFailure, 1)
          | some idea =>
              match idea.characters with
              | none => (.ok idea, 1)
              | some cs =>
                  (.ok { idea with characters := some (attachCharIds uuid 0 cs) }, 1)

/-! ### Helper lemmas about `attachIds` -/

theorem attachIds_length (uuid : Nat → String) (i : Nat)
    (rs : List SceneRecord) : (attachIds uuid i rs).length = rs.length := by
  induction rs generalizing i with
  | nil => rfl
  | cons r rs ih => simp [attachIds, ih]

theorem attachIds_get (uuid : Nat → String) (i : Nat) (rs : List SceneRecord)
    (j : Nat) (h1 : j < (attachIds uuid i rs).length) (h2 : j < rs.length) :
    (attachIds uuid i rs).get ⟨j, h1⟩
      = sceneFromRecord (rs.get ⟨j, h2⟩) (uuid (i + j)) := by
  induction rs generalizing i j with
  | nil => exact absurd h2 (Nat.not_lt_zero j)
  | cons r rs ih =>
      cases j with
      | zero => rfl
      | succ j =>
          have h1' : j < (attachIds uuid (i + 1) rs).length := by
            simpa [attachIds] using h1
          have h2' : j < rs.length := Nat.lt_of_succ_lt_succ h2
          have := ih (i + 1) j h1' h2'
          simpa [attachIds, Nat.add_assoc, Nat.add_comm 1 j] using this

theorem attachIds_map_id (uuid : Nat → String) (i : Nat)
    (rs : List SceneRecord) :
    (attachIds uuid i rs).map (fun s => s.id)
      = (List.range' i rs.length).map uuid := by
  induction rs generalizing i with
  | nil => rfl
  | cons r rs ih => simp [attachIds, List.range'_succ, sceneFromRecord, ih]

theorem attachIds_ids_nodup (uuid : Nat → String) (huuid : Function.Injective uuid)
    (i : Nat) (rs : List SceneRecord) :
    ((attachIds uuid i rs).map (fun s => s.id)).Nodup := by
  rw [attachIds_map_id]
  exact (List.nodup_range' .. ).map huuid

/-! ## C7: a missing credential fails all three operations before any
remote call -/

/-- C7: with no access credential configured, `generateStoryScenes`,
`generateScenePreview` and `generateProjectIdea` each fail with
MissingCredential and perform zero remote calls, for every oracle and every
input. -/
theorem missing_credential_fails_before_remote
    (apiKey : Option String)
    (remoteText remoteIdea : GenRequest → Except String TextResponse)
    (remoteImage : ImageRequest → Except String ImageResponse)
    (parseScenes : String → Option (List SceneRecord))
    (parseIdea : String → Option IdeaRecord)
    (uuid : Nat → String)
    (idea : String) (characters : List Character) (style : AnimationStyle)
    (type : VideoType) (visualPrompt : String) (topic : Option String)
    (h : apiKey = none) :
    generateStoryScenes apiKey remoteText parseScenes uuid idea characters
      style type = (.error .missingCredential, 0) ∧
    generateScenePreview apiKey remoteImage visualPrompt
      = (.error .missingCredential, 0) ∧
    generateProjectIdea apiKey remoteIdea parseIdea uuid topic
      = (.error .missingCredential, 0) := by
  subst h
  exact ⟨rfl, rfl, rfl⟩

/-- Witness for C7 with concrete oracles and inputs. -/
theorem missing_credential_fails_before_remote_witness :
    generateStoryScenes none (fun _ => .error "net") (fun _ => none)
      (fun _ => "u") "idea" [] .DISNEY_PIXAR .SHORT
      = (.error .missingCredential, 0) ∧
    generateScenePreview none (fun _ => .error "net") "prompt"
      = (.error .missingCredential, 0) ∧
    generateProjectIdea none (fun _ => .error "net") (fun _ => none)
      (fun _ => "u") (some "cats")
      = (.error .missingCredential, 0) := by
  exact missing_credential_fails_before_remote none _ _ _ _ _ _ "idea" []
    .DISNEY_PIXAR .SHORT "prompt" (some "cats") rfl

/-! ## C8: generateStoryScenes assigns fresh identifiers -/

/-- C8: when the remote response text parses as a list of scene records,
`generateStoryScenes` succeeds with a list of the same length in the same
order, each returned scene equal to the corresponding record with the next
fresh identifier added and all other fields unchanged, and — the id supply
being injective, as `crypto.randomUUID` is assumed to be — the assigned
identifiers are pairwise distinct.  When the response text does not parse,
the operation fails with an error instead of returning. -/
theorem generateStoryScenes_assigns_fresh_ids
    (key : String)
    (remote : GenRequest → Except String TextResponse)
    (parse : String → Option (List SceneRecord))
    (uuid : Nat → String)
    (idea : String) (characters : List Character)
    (style : AnimationStyle) (type : VideoType)
    (resp : TextResponse) (records : List SceneRecord)
    (hk : key ≠ "")
    (huuid : Function.Injective uuid)
    (hremote : remote (storyRequest idea characters style type) = .ok resp) :
    (parse (textOrElse resp.text "[]") = some records →
      generateStoryScenes (some key) remote parse uuid idea characters style
        type = (.ok (attachIds uuid 0 records), 1) ∧
      (attachIds uuid 0 records).length = records.length ∧
      (∀ j (h1 : j < (attachIds uuid 0 records).length)
        (h2 : j < records.length),
        (attachIds uuid 0 records).get ⟨j, h1⟩
          = sceneFromRecord (records.get ⟨j, h2⟩) (uuid j)) ∧
      ((attachIds uuid 0 records).map (fun s => s.id)).Nodup) ∧
    (parse (textOrElse resp.text "[]") = none →
      (generateStoryScenes (some key) remote parse uuid idea characters style
        type).1 = .error .parseFailure) := by
  constructor
  · intro hparse
    refine ⟨?_, attachIds_length uuid 0 records, ?_, ?_⟩
    · simp [generateStoryScenes, getClient, hk, hremote, hparse]
    · intro j h1 h2
      simpa using attachIds_get uuid 0 records j h1 h2
    · exact attachIds_ids_nodup uuid huuid 0 records
  · intro hparse
    simp [generateStoryScenes, getClient, hk, hremote, hparse]

/-- Witness for C8: a two-record response with an injective id supply, and a
second run whose response text does not parse. -/
theorem generateStoryScenes_assigns_fresh_ids_witness :
    let r1 : SceneRecord := ⟨1, "s1", "v1", "3s"⟩
    let r2 : SceneRecord := ⟨2, "s2", "v2", "4s"⟩
    let uuid : Nat → String := fun i => String.mk (List.replicate i 'u')
    let remote : GenRequest → Except String TextResponse :=
      fun _ => .ok ⟨some "resp"⟩
    let parse : String → Option (List SceneRecord) :=
      fun s => if s = "resp" then some [r1, r2] else none
    let badParse : String → Option (List SceneRecord) := fun _ => none
    (generateStoryScenes (some "k") remote parse uuid "idea" [] .DISNEY_PIXAR
        .SHORT = (.ok (attachIds uuid 0 [r1, r2]), 1) ∧
      (attachIds uuid 0 [r1, r2]).length = 2 ∧
      ((attachIds uuid 0 [r1, r2]).map (fun s => s.id)).Nodup) ∧
    (generateStoryScenes (some "k") remote badParse uuid "idea" []
        .DISNEY_PIXAR .SHORT).1 = .error .parseFailure := by
  intro r1 r2 uuid remote parse badParse
  have huuid : Function.Injective uuid := by
    intro a b h
    have hlen := congrArg (fun s => s.data.length) h
    simpa using hlen
  have hmain := generateStoryScenes_assigns_fresh_ids "k" remote parse uuid
    "idea" [] .DISNEY_PIXAR .SHORT ⟨some "resp"⟩ [r1, r2]
    (by decide) huuid rfl
  have hbad := generateStoryScenes_assigns_fresh_ids "k" remote badParse uuid
    "idea" [] .DISNEY_PIXAR .SHORT ⟨some "resp"⟩ [r1, r2]
    (by decide) huuid rfl
  have h1 := hmain.1 (by rfl)
  refine ⟨⟨h1.1, h1.2.1, h1.2.2.2⟩, hbad.2 rfl⟩

/-! ## C9: an absent or empty response text yields an empty scene list -/

/-- C9: when the remote response carries no text (absent or empty),
`generateStoryScenes` substitutes the empty-list document `"[]"` before
parsing and succeeds with an empty scene list rather than failing. -/
theorem generateStoryScenes_empty_text_yields_empty
    (key : String)
    (remote : GenRequest → Except String TextResponse)
    (parse : String → Option (List SceneRecord))
    (uuid : Nat → String)
    (idea : String) (characters : List Character)
    (style : AnimationStyle) (type : VideoType)
    (resp : TextResponse)
    (hk : key ≠ "")
    (hremote : remote (storyRequest idea characters style type) = .ok resp)
    (htext : resp.text = none ∨ resp.text = some "")
    (hparse : parse "[]" = some []) :
    generateStoryScenes (some key) remote parse uuid idea characters style
      type = (.ok [], 1) := by
  have hsub : textOrElse resp.text "[]" = "[]" := by
    rcases htext with h | h <;> rw [h] <;> rfl
  simp [generateStoryScenes, getClient, hk, hremote, hsub, hparse, attachIds]

/-- Witness for C9: a response with absent text and a parse oracle agreeing
with `JSON.parse` on `"[]"`. -/
theorem generateStoryScenes_empty_text_yields_empty_witness :
    generateStoryScenes (some "k") (fun _ => .ok ⟨none⟩)
      (fun s => if s = "[]" then some [] else none) (fun _ => "u")
      "idea" [] .DISNEY_PIXAR .SHORT = (.ok [], 1) := by
  exact generateStoryScenes_empty_text_yields_empty "k" _ _ _ "idea" []
    .DISNEY_PIXAR .SHORT ⟨none⟩ (by decide) rfl (Or.inl rfl) rfl

/-! ## Decimal rendering

`handleDownloadAssets` renders scene numbers with the JavaScript
`String(scene.sceneNumber)`, i.e. plain decimal notation.  `natDigits n` is
the little-endian list of decimal digits of `n` (empty for `0`), defined with
an explicit fuel for structural recursion. -/

def digitChar (d : Nat) : Char := Char.ofNat (48 + d)

def natDigitsAux : Nat → Nat → List Nat
  | 0, _ => []
  | _ + 1, 0 => []
  | fuel + 1, m + 1 => ((m + 1) % 10) :: natDigitsAux fuel ((m + 1) / 10)

def natDigits (n : Nat) : List Nat := natDigitsAux n n

/-- The decimal rendering of a natural number — the behaviour of the
JavaScript `String(n)` on the non-negative integers. -/
def jsString (n : Nat) : String :=
  if n = 0 then "0" else String.mk ((natDigits n).reverse.map digitChar)

theorem natDigitsAux_congr :
    ∀ f1 f2 m, m ≤ f1 → m ≤ f2 → natDigitsAux f1 m = natDigitsAux f2 m := by
  intro f1
  induction f1 with
  | zero =>
      intro f2 m h1 _
      interval_cases m
      cases f2 <;> rfl
  | succ f ih =>
      intro f2 m h1 h2
      cases m with
      | zero => cases f2 <;> rfl
      | succ k =>
          cases f2 with
          | zero => exact absurd h2 (Nat.not_succ_le_zero k)
          | succ f2' =>
              show ((k + 1) % 10) :: natDigitsAux f ((k + 1) / 10)
                = ((k + 1) % 10) :: natDigitsAux f2' ((k + 1) / 10)
              have hdiv : (k + 1) / 10 < k + 1 :=
                Nat.div_lt_self (Nat.succ_pos k) (by omega)
              have hf : (k + 1) / 10 ≤ f := by omega
              have hf2 : (k + 1) / 10 ≤ f2' := by omega
              rw [ih f2' ((k + 1) / 10) hf hf2]

theorem natDigits_succ (n : Nat) (h : n ≠ 0) :
    natDigits n = (n % 10) :: natDigits (n / 10) := by
  obtain ⟨k, rfl⟩ : ∃ k, n = k + 1 := ⟨n - 1, by omega⟩
  show ((k + 1) % 10) :: natDigitsAux k ((k + 1) / 10)
    = ((k + 1) % 10) :: natDigits ((k + 1) / 10)
  have hdiv : (k + 1) / 10 < k + 1 :=
    Nat.div_lt_self (Nat.succ_pos k) (by omega)
  rw [natDigitsAux_congr k ((k + 1) / 10) ((k + 1) / 10) (by omega) le_rfl]
  rfl

/-- Value of a little-endian digit list. -/
def unDigits : List Nat → Nat
  | [] => 0
  | d :: ds => d + 10 * unDigits ds

theorem unDigits_natDigits (n : Nat) : unDigits (natDigits n) = n := by
  induction n using Nat.strong_induction_on with
  | _ n ih =>
      by_cases h : n = 0
      · subst h; rfl
      · rw [natDigits_succ n h]
        have hdiv : n / 10 < n := Nat.div_lt_self (Nat.pos_of_ne_zero h) (by omega)
        show n % 10 + 10 * unDigits (natDigits (n / 10)) = n
        rw [ih (n / 10) hdiv]
        omega

theorem natDigits_injective : Function.Injective natDigits := by
  intro a b h
  have := congrArg unDigits h
  rwa [unDigits_natDigits, unDigits_natDigits] at this

theorem natDigits_lt_ten (n : Nat) : ∀ d ∈ natDigits n, d < 10 := by
  induction n using Nat.strong_induction_on with
  | _ n ih =>
      by_cases h : n = 0
      · subst h; intro d hd; cases hd
      · rw [natDigits_succ n h]
        intro d hd
        rcases List.mem_cons.mp hd with h1 | h1
        · subst h1; exact Nat.mod_lt n (by omega)
        · have hdiv : n / 10 < n := Nat.div_lt_self (Nat.pos_of_ne_zero h) (by omega)
          exact ih (n / 10) hdiv d h1

theorem natDigits_eq_nil_iff (n : Nat) : natDigits n = [] ↔ n = 0 := by
  constructor
  · intro h
    by_contra hn
    rw [natDigits_succ n hn] at h
    cases h
  · intro h; subst h; rfl

theorem natDigits_length_le_iff (k : Nat) :
    ∀ n, (natDigits n).length ≤ k ↔ n < 10 ^ k := by
  induction k with
  | zero =>
      intro n
      simp only [Nat.le_zero, List.length_eq_zero, natDigits_eq_nil_iff,
        pow_zero, Nat.lt_one_iff]
  | succ k ih =>
      intro n
      by_cases h : n = 0
      · subst h
        simp [natDigits, natDigitsAux, Nat.pos_pow_of_pos, pow_pos]
      · rw [natDigits_succ n h]
        simp only [List.length_cons, Nat.succ_le_succ_iff, ih (n / 10)]
        rw [pow_succ]
        exact Nat.div_lt_iff_lt_mul (by omega)

/-- The leading (most significant) decimal digit of a positive number is
nonzero. -/
theorem natDigits_reverse_head (n : Nat) (h : n ≠ 0) :
    ∃ d ds, (natDigits n).reverse = d :: ds ∧ d ≠ 0 ∧ d < 10 := by
  induction n using Nat.strong_induction_on with
  | _ n ih =>
      rw [natDigits_succ n h]
      by_cases hd : n / 10 = 0
      · have hmod : n % 10 = n := by omega
        exact ⟨n % 10, [], by rw [hd]; rfl, by omega, by omega⟩
      · have hdiv : n / 10 < n := Nat.div_lt_self (Nat.pos_of_ne_zero h) (by omega)
        obtain ⟨d, ds, hds, hdne, hdlt⟩ := ih (n / 10) hdiv hd
        refine ⟨d, ds ++ [n % 10], ?_, hdne, hdlt⟩
        rw [List.reverse_cons, hds]
        rfl

theorem digitChar_ne_zero_char (d : Nat) (hlt : d < 10) (hne : d ≠ 0) :
    (digitChar d == '0') = false := by
  interval_cases d
  · exact absurd rfl hne
  all_goals decide

theorem digitChar_inj (d1 d2 : Nat) (h1 : d1 < 10) (h2 : d2 < 10)
    (h : digitChar d1 = digitChar d2) : d1 = d2 := by
  interval_cases d1 <;> interval_cases d2 <;> revert h <;> decide

theorem map_digitChar_inj :
    ∀ l1 l2 : List Nat, (∀ d ∈ l1, d < 10) → (∀ d ∈ l2, d < 10) →
      l1.map digitChar = l2.map digitChar → l1 = l2 := by
  intro l1
  induction l1 with
  | nil => intro l2 _ _ h; cases l2 with
      | nil => rfl
      | cons b l2 => cases h
  | cons a l1 ih =>
      intro l2 hb1 hb2 h
      cases l2 with
      | nil => cases h
      | cons b l2 =>
          simp only [List.map_cons, List.cons.injEq] at h
          have ha : a = b := digitChar_inj a b
            (hb1 a (List.mem_cons_self a l1)) (hb2 b (List.mem_cons_self b l2)) h.1
          have hl : l1 = l2 := ih l2
            (fun d hd => hb1 d (List.mem_cons_of_mem a hd))
            (fun d hd => hb2 d (List.mem_cons_of_mem b hd)) h.2
          rw [ha, hl]

theorem jsString_injective : Function.Injective jsString := by
  intro a b h
  unfold jsString at h
  by_cases ha : a = 0 <;> by_cases hb : b = 0
  · omega
  · rw [if_pos ha, if_neg hb] at h
    obtain ⟨d, ds, hds, hdne, hdlt⟩ := natDigits_reverse_head b hb
    have hdata : "0".data = ((natDigits b).reverse.map digitChar) :=
      congrArg String.data h
    have h0 : "0".data = ['0'] := rfl
    rw [h0, hds, List.map_cons] at hdata
    have hhead : '0' = digitChar d := by injection hdata
    have hfalse := digitChar_ne_zero_char d hdlt hdne
    rw [← hhead] at hfalse
    simp at hfalse
  · rw [if_neg ha, if_pos hb] at h
    obtain ⟨d, ds, hds, hdne, hdlt⟩ := natDigits_reverse_head a ha
    have hdata : ((natDigits a).reverse.map digitChar) = "0".data :=
      congrArg String.data h
    have h0 : "0".data = ['0'] := rfl
    rw [h0, hds, List.map_cons] at hdata
    have hhead : digitChar d = '0' := by injection hdata
    have hfalse := digitChar_ne_zero_char d hdlt hdne
    rw [hhead] at hfalse
    simp at hfalse
  · rw [if_neg ha, if_neg hb] at h
    have hdata := congrArg String.data h
    simp only at hdata
    have hmap : (natDigits a).reverse.map digitChar
        = (natDigits b).reverse.map digitChar := hdata
    have hrev : (natDigits a).reverse = (natDigits b).reverse :=
      map_digitChar_inj _ _
        (fun d hd => natDigits_lt_ten a d (List.mem_reverse.mp hd))
        (fun d hd => natDigits_lt_ten b d (List.mem_reverse.mp hd)) hmap
    exact natDigits_injective (List.reverse_injective hrev)

/-! ## Export filenames (`handleDownloadAssets`) -/

/-- JavaScript `String.prototype.padStart(targetLength, padChar)`: return the
string unchanged when it is already long enough, otherwise prepend copies of
the pad character up to the target length. -/
def padStart (s : String) (targetLength : Nat) (c : Char) : String :=
  if targetLength ≤ s.length then s
  else String.mk (List.replicate (targetLength - s.length) c) ++ s

/-- Filename `scene_${String(scene.sceneNumber).padStart(3, '0')}.png`. -/
def imageName (sceneNumber : Nat) : String :=
  "scene_" ++ padStart (jsString sceneNumber) 3 '0' ++ ".png"

/-- The scene number zero-padded to 3 digits, written from the spec's words
for comparison with the code's `padStart`-based rendering. -/
def specZeroPad3 (n : Nat) : String :=
  if n < 10 then "00" ++ jsString n
  else if n < 100 then "0" ++ jsString n
  else jsString n

theorem jsString_data (n : Nat) (h : n ≠ 0) :
    (jsString n).data = (natDigits n).reverse.map digitChar := by
  rw [jsString, if_neg h]

theorem jsString_length (n : Nat) (h : n ≠ 0) :
    (jsString n).length = (natDigits n).length := by
  show (jsString n).data.length = (natDigits n).length
  rw [jsString_data n h]
  simp

theorem jsString_length_eq_one (n : Nat) (h1 : 1 ≤ n) (h9 : n ≤ 9) :
    (jsString n).length = 1 := by
  have hne : n ≠ 0 := by omega
  rw [jsString_length n hne]
  have hle : (natDigits n).length ≤ 1 := (natDigits_length_le_iff 1 n).mpr (by omega)
  have hge : (natDigits n).length ≠ 0 := fun hz =>
    hne ((natDigits_eq_nil_iff n).mp (List.length_eq_zero.mp hz))
  omega

theorem jsString_length_eq_two (n : Nat) (h1 : 10 ≤ n) (h9 : n ≤ 99) :
    (jsString n).length = 2 := by
  have hne : n ≠ 0 := by omega
  rw [jsString_length n hne]
  have hle : (natDigits n).length ≤ 2 := (natDigits_length_le_iff 2 n).mpr (by omega)
  have hgt : ¬ (natDigits n).length ≤ 1 := by
    rw [natDigits_length_le_iff 1 n]
    omega
  omega

theorem jsString_length_eq_three (n : Nat) (h1 : 100 ≤ n) (h9 : n ≤ 999) :
    (jsString n).length = 3 := by
  have hne : n ≠ 0 := by omega
  rw [jsString_length n hne]
  have hle : (natDigits n).length ≤ 3 := (natDigits_length_le_iff 3 n).mpr (by omega)
  have hgt : ¬ (natDigits n).length ≤ 2 := by
    rw [natDigits_length_le_iff 2 n]
    omega
  omega

/-- On 1–999 the code's `padStart`-based filename core agrees with the
spec-side zero-padding. -/
theorem padStart_eq_specZeroPad3 (n : Nat) (h1 : 1 ≤ n) (h999 : n ≤ 999) :
    padStart (jsString n) 3 '0' = specZeroPad3 n := by
  by_cases hlt10 : n < 10
  · have hlen := jsString_length_eq_one n h1 (by omega)
    rw [padStart, if_neg (by omega), hlen, specZeroPad3, if_pos hlt10]
    rfl
  · by_cases hlt100 : n < 100
    · have hlen := jsString_length_eq_two n (by omega) (by omega)
      rw [padStart, if_neg (by omega), hlen, specZeroPad3, if_neg hlt10,
        if_pos hlt100]
      rfl
    · have hlen := jsString_length_eq_three n (by omega) h999
      rw [padStart, if_pos (by omega), specZeroPad3, if_neg hlt10,
        if_neg hlt100]

theorem string_eq_of_data {s t : String} (h : s.data = t.data) : s = t := by
  cases s; cases t; simp_all

theorem dropWhile_replicate_append (p : Char → Bool) (c : Char)
    (hc : p c = true) (k : Nat) (l : List Char) :
    List.dropWhile p (List.replicate k c ++ l) = List.dropWhile p l := by
  induction k with
  | zero => rfl
  | succ k ih => simp [List.replicate_succ, List.dropWhile_cons, hc, ih]

/-- Dropping leading `'0'` characters from the padded rendering recovers the
plain rendering. -/
theorem dropZeros_padStart (n : Nat) (h1 : 1 ≤ n) :
    (padStart (jsString n) 3 '0').data.dropWhile (fun ch => ch == '0')
      = (jsString n).data := by
  have hne : n ≠ 0 := by omega
  have hhead : ∃ d ds, (natDigits n).reverse = d :: ds ∧ d ≠ 0 ∧ d < 10 :=
    natDigits_reverse_head n hne
  obtain ⟨d, ds, hds, hdne, hdlt⟩ := hhead
  have hjs : (jsString n).data = digitChar d :: ds.map digitChar := by
    rw [jsString_data n hne, hds, List.map_cons]
  have hdrop : (jsString n).data.dropWhile (fun ch => ch == '0')
      = (jsString n).data := by
    rw [hjs, List.dropWhile_cons, digitChar_ne_zero_char d hdlt hdne]
    simp
  rw [padStart]
  by_cases hcase : 3 ≤ (jsString n).length
  · rw [if_pos hcase]; exact hdrop
  · rw [if_neg hcase]
    rw [String.data_append]
    show List.dropWhile (fun ch => ch == '0')
      (List.replicate (3 - (jsString n).length) '0' ++ (jsString n).data)
      = (jsString n).data
    rw [dropWhile_replicate_append (fun ch => ch == '0') '0' rfl]
    exact hdrop

/-- The padded renderings of two numbers in 1–999 agree only when the
numbers do. -/
theorem padStart_jsString_inj (m n : Nat)
    (hm1 : 1 ≤ m) (hn1 : 1 ≤ n)
    (h : padStart (jsString m) 3 '0' = padStart (jsString n) 3 '0') :
    m = n := by
  have hdata : (padStart (jsString m) 3 '0').data.dropWhile (fun ch => ch == '0')
      = (padStart (jsString n) 3 '0').data.dropWhile (fun ch => ch == '0') :=
    congrArg (fun s => s.data.dropWhile (fun ch => ch == '0')) h
  rw [dropZeros_padStart m hm1, dropZeros_padStart n hn1] at hdata
  exact jsString_injective (string_eq_of_data hdata)

/-! ## C6: export image filenames -/

/-- C6: for scene numbers 1–999 the export names the scene's image file
exactly `scene_` followed by the scene number zero-padded to 3 digits and
`.png`, and distinct scene numbers in that range receive distinct
filenames. -/
theorem imageName_pattern_and_injective (n : Nat) (h1 : 1 ≤ n) (h999 : n ≤ 999) :
    imageName n = "scene_" ++ specZeroPad3 n ++ ".png" ∧
    (∀ m, 1 ≤ m → m ≤ 999 → m ≠ n → imageName m ≠ imageName n) := by
  constructor
  · rw [imageName, padStart_eq_specZeroPad3 n h1 h999]
  · intro m hm1 _ hne heq
    apply hne
    have hdata : ("scene_" ++ padStart (jsString m) 3 '0' ++ ".png").data
        = ("scene_" ++ padStart (jsString n) 3 '0' ++ ".png").data :=
      congrArg String.data heq
    rw [String.data_append, String.data_append, String.data_append,
      String.data_append, List.append_assoc, List.append_assoc] at hdata
    have hmid := (List.append_inj' (List.append_cancel_left hdata) rfl).1
    exact padStart_jsString_inj m n hm1 h1 (string_eq_of_data hmid)

/-- Witness for C6 at scene numbers 7 and 42. -/
theorem imageName_pattern_and_injective_witness :
    imageName 7 = "scene_" ++ specZeroPad3 7 ++ ".png" ∧
    imageName 42 ≠ imageName 7 := by
  have h7 := imageName_pattern_and_injective 7 (by omega) (by omega)
  exact ⟨h7.1, h7.2 42 (by omega) (by omega) (by omega)⟩

/-! ## Asset export (`handleDownloadAssets` in `Storyboard.tsx`)

The manifest text is accumulated with `scriptContent += ...` per scene, in
the order of `project.scenes`; an image zip entry is added for a scene when
`scene.generatedImageUrl` is truthy and `split(',')[1]` is truthy. -/

/-- JavaScript truthiness of an optional string: `undefined` and `""` are
falsy. -/
def truthy : Option String → Bool
  | none => false
  | some s => s != ""

/-- JavaScript `s.split(c)` for a single-character separator, accumulating
the current segment in reverse. -/
def splitOnCharAux (c : Char) : List Char → List Char → List String
  | [], acc => [String.mk acc.reverse]
  | x :: xs, acc =>
      if x = c then String.mk acc.reverse :: splitOnCharAux c xs []
      else splitOnCharAux c xs (x :: acc)

def jsSplit (s : String) (c : Char) : List String :=
  splitOnCharAux c s.data []

/-- The manifest header:
`Project: ...\nStyle: ...\nType: ...\nStory Idea: ...\n\n====...\n\n`. -/
def projectHeader (project : Project) : String :=
  "Project: " ++ project.name ++ "\n"
  ++ "Style: " ++ project.style.value ++ "\n"
  ++ "Type: " ++ project.type.value ++ "\n"
  ++ "Story Idea: " ++ project.storyIdea
  ++ "\n\n" ++ String.mk (List.replicate 48 '=') ++ "\n\n"

/-- One scene's manifest block, given the text of its
`Generated Image File:` field. -/
def sceneBlockWith (scene : Scene) (imageField : String) : String :=
  "SCENE " ++ jsString scene.sceneNumber ++ "\n"
  ++ "Duration: " ++ scene.duration ++ "\n"
  ++ "Script: \"" ++ scene.script ++ "\"\n"
  ++ "Visual Prompt: " ++ scene.visualPrompt ++ "\n"
  ++ "Generated Image File: " ++ imageField ++ "\n"
  ++ String.mk (List.replicate 48 '-') ++ "\n\n"

/-- Ternary `scene.generatedImageUrl ? imageName : '[Not Generated Yet]'`. -/
def sceneImageField (scene : Scene) : String :=
  if truthy scene.generatedImageUrl then imageName scene.sceneNumber
  else "[Not Generated Yet]"

/-- A zip image entry: assigned filename and the base64 payload passed to
`zip.file(imageName, base64Data, { base64: true })`. -/
structure ZipEntry where
  name : String
  base64Content : String
deriving DecidableEq

/-- The image entry a scene contributes, if any: requires a truthy
`generatedImageUrl` and a truthy second comma-delimited segment
(`split(',')[1]`). -/
def sceneZipEntry (scene : Scene) : Option ZipEntry :=
  match scene.generatedImageUrl with
  | none => none
  | some url =>
      if url = "" then none
      else
        match (jsSplit url ',').get? 1 with
        | none => none
        | some seg =>
            if seg = "" then none
            else some ⟨imageName scene.sceneNumber, seg⟩

/-- One iteration of the export loop: the scene's manifest block and its
optional image entry. -/
def processScene (scene : Scene) : String × Option ZipEntry :=
  (sceneBlockWith scene (sceneImageField scene), sceneZipEntry scene)

/-- Function `handleDownloadAssets`: fold the export loop over `project.scenes`,
starting from the header, returning the manifest text and the image entries
in the order they were added to the archive. -/
def handleDownloadAssets (project : Project) : String × List ZipEntry :=
  project.scenes.foldl
    (fun acc scene =>
      (acc.1 ++ (processScene scene).1,
       acc.2 ++ (match (processScene scene).2 with
         | some e => [e]
         | none => [])))
    (projectHeader project, [])

/-- The concatenation of the scenes' manifest blocks in list order. -/
def manifestBody : List Scene → String
  | [] => ""
  | scene :: rest => (processScene scene).1 ++ manifestBody rest

theorem handleDownloadAssets_manifest_foldl (scenes : List Scene)
    (init : String) (entries : List ZipEntry) :
    (scenes.foldl
      (fun acc scene =>
        (acc.1 ++ (processScene scene).1,
         acc.2 ++ (match (processScene scene).2 with
           | some e => [e]
           | none => [])))
      (init, entries)).1 = init ++ manifestBody scenes := by
  induction scenes generalizing init entries with
  | nil => simp [manifestBody, String.append_empty]
  | cons scene rest ih =>
      show (rest.foldl _ (init ++ (processScene scene).1, _)).1
        = init ++ manifestBody (scene :: rest)
      rw [ih]
      rw [manifestBody, String.append_assoc]

/-! ## C1: manifest scene ordering -/

/-- C1 counterexample: two projects with identical metadata whose scene
lists (with distinct scene numbers 1 and 2) are permutations of each other
produce different manifest texts — the manifest follows the input list
order, so it is not sorted by scene number and not permutation-invariant. -/
theorem manifest_not_permutation_invariant :
    let s1 : Scene := ⟨"a", 1, "", "", "", none, none⟩
    let s2 : Scene := ⟨"b", 2, "", "", "", none, none⟩
    let p1 : Project := ⟨"p", "", .SHORT, .DISNEY_PIXAR, 0, [], [s2, s1], ""⟩
    let p2 : Project := ⟨"p", "", .SHORT, .DISNEY_PIXAR, 0, [], [s1, s2], ""⟩
    p1.scenes.Perm p2.scenes ∧
    s1.sceneNumber ≠ s2.sceneNumber ∧
    (handleDownloadAssets p1).1 ≠ (handleDownloadAssets p2).1 := by
  refine ⟨List.Perm.swap _ _ _, by decide, by decide⟩

/-- C1 (amended): the export manifest is the project header followed by the
per-scene blocks concatenated in the order of the input scene list; it
therefore lists the scenes in ascending scene-number order exactly when the
scene list itself is so sorted, and permuting the scene list permutes the
manifest blocks rather than leaving the text unchanged. -/
theorem manifest_lists_scenes_in_input_order (project : Project) :
    (handleDownloadAssets project).1
      = projectHeader project ++ manifestBody project.scenes :=
  handleDownloadAssets_manifest_foldl project.scenes (projectHeader project) []

/-! ## C10: malformed image payloads -/

theorem splitOnCharAux_no_sep (c : Char) (l acc : List Char)
    (h : ∀ ch ∈ l, ch ≠ c) :
    splitOnCharAux c l acc = [String.mk (acc.reverse ++ l)] := by
  induction l generalizing acc with
  | nil => simp [splitOnCharAux]
  | cons x xs ih =>
      have hx : x ≠ c := h x (List.mem_cons_self x xs)
      have hxs : ∀ ch ∈ xs, ch ≠ c := fun ch hch => h ch (List.mem_cons_of_mem x hch)
      rw [splitOnCharAux, if_neg hx, ih (x :: acc) hxs]
      simp

/-- A string with no comma has no second comma-delimited segment. -/
theorem jsSplit_no_comma (url : String) (h : ∀ ch ∈ url.data, ch ≠ ',') :
    (jsSplit url ',').get? 1 = none := by
  rw [jsSplit, splitOnCharAux_no_sep ',' url.data [] h]
  rfl

theorem imageName_ne_placeholder (n : Nat) :
    imageName n ≠ "[Not Generated Yet]" := by
  intro h
  have hdata := congrArg (fun s => s.data.head?) h
  rw [imageName] at hdata
  simp only [String.data_append] at hdata
  have hleft : ("scene_".data ++ ((padStart (jsString n) 3 '0').data
      ++ ".png".data)).head? = some 's' := rfl
  rw [List.append_assoc] at hdata
  rw [hleft] at hdata
  cases hdata

/-- C10: a scene whose stored image payload is a non-empty string containing
no comma contributes no image entry to the archive, yet its manifest block
still lists the assigned image filename, not the missing-image
placeholder. -/
theorem export_malformed_payload_skips_image_keeps_filename
    (scene : Scene) (url : String)
    (hurl : scene.generatedImageUrl = some url) (hne : url ≠ "")
    (hnocomma : ∀ ch ∈ url.data, ch ≠ ',') :
    (processScene scene).2 = none ∧
    (processScene scene).1
      = sceneBlockWith scene (imageName scene.sceneNumber) ∧
    imageName scene.sceneNumber ≠ "[Not Generated Yet]" := by
  refine ⟨?_, ?_, imageName_ne_placeholder scene.sceneNumber⟩
  · show sceneZipEntry scene = none
    rw [sceneZipEntry, hurl]
    show (if url = "" then none
      else match (jsSplit url ',').get? 1 with
        | none => none
        | some seg => if seg = "" then none
            else some (ZipEntry.mk (imageName scene.sceneNumber) seg)) = none
    rw [if_neg hne, jsSplit_no_comma url hnocomma]
  · show sceneBlockWith scene (sceneImageField scene)
      = sceneBlockWith scene (imageName scene.sceneNumber)
    have htruthy : truthy scene.generatedImageUrl = true := by
      rw [hurl]
      exact bne_iff_ne.mpr hne
    rw [sceneImageField, if_pos htruthy]

/-- Witness for C10: a scene whose payload `"abc"` has no comma. -/
theorem export_malformed_payload_witness :
    let scene : Scene := ⟨"s1", 3, "sc", "vp", "3s", some "abc", none⟩
    (processScene scene).2 = none ∧
    (processScene scene).1
      = sceneBlockWith scene (imageName scene.sceneNumber) ∧
    imageName scene.sceneNumber ≠ "[Not Generated Yet]" := by
  exact export_malformed_payload_skips_image_keeps_filename _ "abc" rfl
    (by decide) (by decide)

end AniScript
